import Mathlib

/-!
Verification of the goRoute routing table (src/myRoute.go).

The Go source is shallowly embedded: byte slices (net.IP, net.IPMask)
become lists of naturals, nil-able pointers become Option, the uint32
priority arithmetic is carried out modulo 2^32, and panics (nil-pointer
dereferences) surface as an Except error. The CIDR / IP string fields of
a Route are represented by their net.ParseCIDR / net.ParseIP results
(none for a string that does not parse, matching the nil the Go parsers
return), since the claims concern how parse failures propagate, not the
textual grammar. Go's sort.Sort on routeSlice is modelled by a
deterministic comparison sort over the same Less relation.
-/

namespace GoRoute

/-- net.IP: a byte sequence (4 bytes for IPv4, 16 for IPv6). -/
abbrev IPAddr := List Nat

/-- net.IPMask: a byte sequence. -/
abbrev IPMask := List Nat

/-- The 12-byte head an IPv4-mapped 16-byte address starts with
(Go's v4InV6Prefix). -/
def v4InV6Head : List Nat := [0, 0, 0, 0, 0, 0, 0, 0, 0, 0, 255, 255]

/-- net.IP.To4: the 4-byte form of an address, none if it is not IPv4. -/
def ipTo4 (ip : IPAddr) : Option IPAddr :=
  if ip.length = 4 then some ip
  else if ip.length = 16 && decide (ip.take 12 = v4InV6Head) then some (ip.drop 12)
  else none

/-- net.IP.To16: the 16-byte form of an address, none if it is neither
4 nor 16 bytes long. -/
def ipTo16 (ip : IPAddr) : Option IPAddr :=
  if ip.length = 4 then some (v4InV6Head ++ ip)
  else if ip.length = 16 then some ip
  else none

/-- net.IPNet: an address with a mask. -/
structure IPNet where
  IP : IPAddr
  Mask : IPMask
deriving DecidableEq

/-- Go's networkNumberAndMask: normalise a net's address to 4 bytes when
possible and trim a 16-byte mask against a 4-byte address; none models
the (nil, nil) return for a malformed net. -/
def networkNumberAndMask (n : IPNet) : Option (IPAddr × IPMask) :=
  match (match ipTo4 n.IP with
         | some x => some x
         | none => if n.IP.length = 16 then some n.IP else none) with
  | none => none
  | some ip =>
    if n.Mask.length = 4 then
      if ip.length ≠ 4 then none else some (ip, n.Mask)
    else if n.Mask.length = 16 then
      if ip.length = 4 then some (ip, n.Mask.drop 12) else some (ip, n.Mask)
    else none

/-- The byte loop of net.IPNet.Contains: nn[i] and m[i] agree with
ip[i] and m[i] under the mask, position by position. -/
def maskedBytesEq : List Nat → List Nat → List Nat → Bool
  | [], _, _ => true
  | nb :: nn, mb :: m, ib :: ip =>
      (Nat.land nb mb == Nat.land ib mb) && maskedBytesEq nn m ip
  | _ :: _, _, _ => false

/-- net.IPNet.Contains. -/
def IPNet.Contains (n : IPNet) (ip : IPAddr) : Bool :=
  let nnm := match networkNumberAndMask n with
             | some p => p
             | none => ([], [])
  let ip2 := match ipTo4 ip with
             | some x => x
             | none => ip
  if ip2.length = nnm.1.length then maskedBytesEq nnm.1 nnm.2 ip2 else false

/-- The inner byte step of Go's simpleMaskLength: the number of leading
one bits of a byte of the form 1^k 0^(8-k), none for any other byte. -/
def byteOnes (v : Nat) : Option Nat :=
  if v = 255 then some 8
  else if v = 254 then some 7
  else if v = 252 then some 6
  else if v = 248 then some 5
  else if v = 240 then some 4
  else if v = 224 then some 3
  else if v = 192 then some 2
  else if v = 128 then some 1
  else if v = 0 then some 0
  else none

/-- Go's simpleMaskLength: the number of leading one bits of a canonical
mask, none (Go: -1) for a non-contiguous mask. -/
def simpleMaskLength : List Nat → Option Nat
  | [] => some 0
  | v :: rest =>
    if v = 255 then
      match simpleMaskLength rest with
      | some k => some (8 + k)
      | none => none
    else
      match byteOnes v with
      | none => none
      | some k => if rest.all (fun b => b == 0) then some k else none

/-- net.IPMask.Size: (leading ones, total bits), (0, 0) for a
non-canonical mask. -/
def IPMask.Size (m : IPMask) : Nat × Nat :=
  match simpleMaskLength m with
  | some ones => (ones, m.length * 8)
  | none => (0, 0)

/-- InterfaceAddress from myRoute.go. -/
structure InterfaceAddress where
  IP : IPAddr
  Netmask : IPMask
  Broadaddr : IPAddr
  Gateway : IPAddr
deriving DecidableEq

/-- Interface from myRoute.go; Id is Go's int64. -/
structure Interface where
  Id : Int
  Name : String
  addrs : List InterfaceAddress
deriving DecidableEq

/-- Interface.Addresses. -/
def Interface.Addresses (i : Interface) : List InterfaceAddress := i.addrs

/-- The two address-selection strategies stored as function values in the
Go source; Route.Selector only ever produces FirstAddressSelector, so a
closed tag type represents the stored function. -/
inductive SelKind where
  | first : SelKind
  | fit : SelKind
deriving DecidableEq

/-- FirstAddressSelector: the first candidate, none for an empty list. -/
def FirstAddressSelector (a : List InterfaceAddress) (src dst : IPAddr) :
    Option InterfaceAddress :=
  match a with
  | x :: _ => some x
  | [] => none

/-- FitAddressSelector: the first candidate address A whose network
(A.IP with A.Netmask) contains dst, none if no candidate qualifies. -/
def FitAddressSelector (a : List InterfaceAddress) (src dst : IPAddr) :
    Option InterfaceAddress :=
  match a with
  | [] => none
  | A :: rest =>
      if IPNet.Contains { IP := A.IP, Mask := A.Netmask } dst then some A
      else FitAddressSelector rest src dst

/-- Dispatch a stored selector tag to its function. -/
def applySelector : SelKind → List InterfaceAddress → IPAddr → IPAddr → Option InterfaceAddress
  | SelKind.first => FirstAddressSelector
  | SelKind.fit => FitAddressSelector

/-- Route from myRoute.go. Src and Dst hold the net.ParseCIDR result of
the Go string fields (none when the string does not parse, as the Go
methods SrcNet/DstNet discard the parse error and return a nil pointer);
NextHop holds the net.ParseIP result of the NextHop string. -/
structure Route where
  iface : Interface
  Src : Option IPNet
  Dst : Option IPNet
  Priority : Nat
  NextHop : Option IPAddr
deriving DecidableEq

/-- Route.SrcNet: the parse of the Src CIDR string, nil on failure. -/
def Route.SrcNet (r : Route) : Option IPNet := r.Src

/-- Route.DstNet: the parse of the Dst CIDR string, nil on failure. -/
def Route.DstNet (r : Route) : Option IPNet := r.Dst

/-- Route.NextHopIP: the parse of the NextHop string, nil on failure. -/
def Route.NextHopIP (r : Route) : Option IPAddr := r.NextHop

/-- Route.Selector always returns FirstAddressSelector. -/
def Route.Selector (r : Route) : SelKind := SelKind.first

/-- Route.Interface returns the iface field; its error is always nil in
the source, so the err-skip branch of AddRoutes never runs. -/
def Route.Interface (r : Route) : Interface := r.iface

/-- RTInfo from myRoute.go: a compiled table entry. -/
structure RTInfo where
  Src : Option IPNet
  Dst : Option IPNet
  Selector : Option SelKind
  Priority : Nat
  Iface : Int
  NextHop : Option IPAddr
deriving DecidableEq

/-- The ones count of an entry's destination mask, as routeSlice.Less
reads it (Size's first component). The Go code dereferences Dst without
a nil check; entries reaching the sorted slices always carry a parsed
Dst, the none branch is a total-function default. -/
def RTInfo.dstOnes (rt : RTInfo) : Nat :=
  match rt.Dst with
  | some n => (IPMask.Size n.Mask).1
  | none => 0

/-- routeSlice.Less: longer destination masks first, then smaller
priority first. -/
def routeLess (a b : RTInfo) : Bool :=
  if a.dstOnes ≠ b.dstOnes then decide (b.dstOnes < a.dstOnes)
  else decide (a.Priority < b.Priority)

/-- The non-strict order sort.Sort establishes: a may stay before b
exactly when Less b a is false. -/
def routeLE (a b : RTInfo) : Prop := routeLess b a = false

instance : DecidableRel routeLE :=
  fun a b => inferInstanceAs (Decidable (routeLess b a = false))

/-- The interface map of the Router, Go's map[int64]*Interface: an
association list looked up front-to-back, insertion prepending, so the
last write to a key wins as in a Go map. -/
abbrev IfaceMap := List (Int × Interface)

/-- Store an interface under its id (map assignment). -/
def mapInsert (m : IfaceMap) (k : Int) (v : Interface) : IfaceMap := (k, v) :: m

/-- Read a key (map access; none models the nil zero value). -/
def mapLookup (m : IfaceMap) (k : Int) : Option Interface :=
  match m.find? (fun p => p.1 == k) with
  | some p => some p.2
  | none => none

/-- Router from myRoute.go. -/
structure Router where
  ifaces : IfaceMap
  v4 : List RTInfo
  v6 : List RTInfo
deriving DecidableEq

/-- NewRouter: empty map, empty slices. -/
def NewRouter : Router := { ifaces := [], v4 := [], v6 := [] }

/-- A Go runtime panic; AddRoutes dereferences route.DstNet() without a
nil check at the family test, so an unparsable destination CIDR panics. -/
inductive GoPanic where
  | nilDeref : GoPanic
deriving DecidableEq

/-- The RTInfo AddRoutes builds for one route: parsed nets, the route's
selector (always first-address), priority summed with the batch offset in
uint32 arithmetic, the owning interface id and the parsed next hop. -/
def compileRT (route : Route) (priority : Nat) : RTInfo :=
  { Src := route.SrcNet
    Dst := route.DstNet
    Selector := some route.Selector
    Priority := (route.Priority + priority) % 4294967296
    Iface := route.Interface.Id
    NextHop := route.NextHopIP }

/-- Router.AddRoutes: for each route, register its interface, build the
entry, then bucket it by the byte length of the parsed destination
address; reading that length dereferences a nil pointer (panics) when
the destination did not parse. -/
def Router.AddRoutes (r : Router) (priority : Nat) : List Route → Except GoPanic Router
  | [] => Except.ok r
  | route :: rest =>
      let iface := route.Interface
      let r1 : Router := { r with ifaces := mapInsert r.ifaces iface.Id iface }
      let rt := compileRT route priority
      match route.DstNet with
      | none => Except.error GoPanic.nilDeref
      | some d =>
          let r2 : Router :=
            if d.IP.length = 4 then { r1 with v4 := r1.v4 ++ [rt] }
            else if d.IP.length = 16 then { r1 with v6 := r1.v6 ++ [rt] }
            else r1
          Router.AddRoutes r2 priority rest

/-- The sort Update applies to a family slice: a deterministic comparison
sort realising sort.Sort's contract, the result ordered by routeLE. -/
def sortRoutes (l : List RTInfo) : List RTInfo := List.insertionSort routeLE l

/-- Router.Update: sort both family slices. -/
def Router.Update (r : Router) : Router :=
  { r with v4 := sortRoutes r.v4, v6 := sortRoutes r.v6 }

/-- The errors the lookups return; nilIface stands for the nil-pointer
dereference that follows a failed interface-map lookup. -/
inductive RouteError where
  | invalidIP : RouteError
  | noRoute : IPAddr → RouteError
  | nilIface : RouteError
deriving DecidableEq

/-- The first skip test of Router.route: a non-nil source net that does
not contain the source IP. -/
def skipSrc (rt : RTInfo) (src : IPAddr) : Bool :=
  match rt.Src with
  | some n => !(IPNet.Contains n src)
  | none => false

/-- The second skip test of Router.route: a non-nil destination net that
does not contain the destination IP. -/
def skipDst (rt : RTInfo) (dst : IPAddr) : Bool :=
  match rt.Dst with
  | some n => !(IPNet.Contains n dst)
  | none => false

/-- An entry matches a query when neither skip test fires. -/
def rtMatches (rt : RTInfo) (src dst : IPAddr) : Bool :=
  !(skipSrc rt src) && !(skipDst rt dst)

/-- Router.route: scan the slice in order, return the first entry that
passes both skip tests, and a no-route error naming the destination when
none does. -/
def Router.route : List RTInfo → IPAddr → IPAddr → Except RouteError RTInfo
  | [], _, dst => Except.error (RouteError.noRoute dst)
  | rt :: rest, src, dst =>
      if skipSrc rt src then Router.route rest src dst
      else if skipDst rt dst then Router.route rest src dst
      else Except.ok rt

/-- Router.RouteWithSrc: pick the family slice by the destination's To4 /
To16 tests, scan it, resolve the entry's interface from the map (a miss
is the nil dereference), and apply the entry's selector (first-address
when unset) to the interface's addresses with (src, dst). -/
def Router.RouteWithSrc (r : Router) (src dst : IPAddr) :
    Except RouteError (Interface × Option InterfaceAddress) :=
  match (if (ipTo4 dst).isSome then Router.route r.v4 src dst
         else if (ipTo16 dst).isSome then Router.route r.v6 src dst
         else Except.error RouteError.invalidIP) with
  | Except.error e => Except.error e
  | Except.ok rt =>
      match mapLookup r.ifaces rt.Iface with
      | none => Except.error RouteError.nilIface
      | some iface =>
          let selector := match rt.Selector with
                          | some s => s
                          | none => SelKind.first
          Except.ok (iface, applySelector selector iface.Addresses src dst)

/-- Router.RouteWithNextHop: same family dispatch and scan, but the
selector is always FitAddressSelector (the per-entry selector is
commented out in the source), the selection target is the entry's next
hop when present and the destination otherwise, and the next hop is
returned alongside. -/
def Router.RouteWithNextHop (r : Router) (src dst : IPAddr) :
    Except RouteError (Interface × Option InterfaceAddress × Option IPAddr) :=
  match (if (ipTo4 dst).isSome then Router.route r.v4 src dst
         else if (ipTo16 dst).isSome then Router.route r.v6 src dst
         else Except.error RouteError.invalidIP) with
  | Except.error e => Except.error e
  | Except.ok rt =>
      match mapLookup r.ifaces rt.Iface with
      | none => Except.error RouteError.nilIface
      | some iface =>
          let target := match rt.NextHop with
                        | some nh => nh
                        | none => dst
          Except.ok (iface, FitAddressSelector iface.Addresses src target, rt.NextHop)

/-- The selection target RouteWithNextHop uses, reconstructed from the
next hop it returns: the next hop when present, the destination
otherwise. -/
def nhTarget (nh : Option IPAddr) (dst : IPAddr) : IPAddr :=
  match nh with
  | some x => x
  | none => dst

/-- The mutating calls of the Router API, for stating reachability. -/
inductive RouterOp where
  | addRoutes : Nat → List Route → RouterOp
  | update : RouterOp

/-- Run one API call. -/
def applyOp (r : Router) : RouterOp → Except GoPanic Router
  | RouterOp.addRoutes p rs => Router.AddRoutes r p rs
  | RouterOp.update => Except.ok (Router.Update r)

/-- Run a sequence of API calls, stopping at the first panic. -/
def runOps : Router → List RouterOp → Except GoPanic Router
  | r, [] => Except.ok r
  | r, op :: ops =>
      match applyOp r op with
      | Except.ok r2 => runOps r2 ops
      | Except.error e => Except.error e

/-! ## Order lemmas for the sort comparator -/

/-- routeLE unfolded: longer mask first, priority as tie-break. -/
theorem routeLE_iff (a b : RTInfo) :
    routeLE a b ↔
      (b.dstOnes < a.dstOnes ∨ (a.dstOnes = b.dstOnes ∧ a.Priority ≤ b.Priority)) := by
  by_cases h : b.dstOnes = a.dstOnes <;> simp [routeLE, routeLess, h] <;> omega

instance : IsTotal RTInfo routeLE :=
  ⟨by intro a b; rw [routeLE_iff, routeLE_iff]; omega⟩

instance : IsTrans RTInfo routeLE :=
  ⟨by intro a b c hab hbc; rw [routeLE_iff] at hab hbc ⊢; omega⟩

theorem sorted_sortRoutes (l : List RTInfo) : List.Sorted routeLE (sortRoutes l) :=
  List.sorted_insertionSort routeLE l

theorem sortRoutes_idem (l : List RTInfo) : sortRoutes (sortRoutes l) = sortRoutes l :=
  List.Sorted.insertionSort_eq (sorted_sortRoutes l)

theorem mem_sortRoutes {l : List RTInfo} {x : RTInfo} : x ∈ sortRoutes l ↔ x ∈ l :=
  List.mem_insertionSort routeLE

/-! ## Lemmas about the linear scan -/

theorem rtMatches_skips (rt : RTInfo) (src dst : IPAddr) :
    rtMatches rt src dst = true ↔ (skipSrc rt src = false ∧ skipDst rt dst = false) := by
  simp [rtMatches]

theorem skipSrc_false_iff (rt : RTInfo) (src : IPAddr) :
    skipSrc rt src = false ↔
      (rt.Src = none ∨ ∃ n, rt.Src = some n ∧ IPNet.Contains n src = true) := by
  cases h : rt.Src with
  | none => simp [skipSrc, h]
  | some n => simp [skipSrc, h]

theorem skipDst_false_iff (rt : RTInfo) (dst : IPAddr) :
    skipDst rt dst = false ↔
      (rt.Dst = none ∨ ∃ n, rt.Dst = some n ∧ IPNet.Contains n dst = true) := by
  cases h : rt.Dst with
  | none => simp [skipDst, h]
  | some n => simp [skipDst, h]

theorem route_ok_mem (src dst : IPAddr) :
    ∀ (l : List RTInfo) (rt : RTInfo),
      Router.route l src dst = Except.ok rt → rt ∈ l := by
  intro l
  induction l with
  | nil => intro rt h; simp [Router.route] at h
  | cons a l ih =>
    intro rt h
    unfold Router.route at h
    by_cases h1 : skipSrc a src = true
    · rw [if_pos h1] at h
      exact List.mem_cons_of_mem _ (ih rt h)
    · rw [if_neg h1] at h
      by_cases h2 : skipDst a dst = true
      · rw [if_pos h2] at h
        exact List.mem_cons_of_mem _ (ih rt h)
      · rw [if_neg h2] at h
        simp only [Except.ok.injEq] at h
        subst h
        exact List.mem_cons_self _ _

theorem route_ok_matches (src dst : IPAddr) :
    ∀ (l : List RTInfo) (rt : RTInfo),
      Router.route l src dst = Except.ok rt → rtMatches rt src dst = true := by
  intro l
  induction l with
  | nil => intro rt h; simp [Router.route] at h
  | cons a l ih =>
    intro rt h
    unfold Router.route at h
    by_cases h1 : skipSrc a src = true
    · rw [if_pos h1] at h; exact ih rt h
    · rw [if_neg h1] at h
      by_cases h2 : skipDst a dst = true
      · rw [if_pos h2] at h; exact ih rt h
      · rw [if_neg h2] at h
        simp only [Except.ok.injEq] at h
        subst h
        rw [rtMatches_skips]
        exact ⟨Bool.not_eq_true _ ▸ Bool.of_not_eq_true h1, Bool.of_not_eq_true h2⟩

theorem route_error_shape (src dst : IPAddr) :
    ∀ (l : List RTInfo) (e : RouteError),
      Router.route l src dst = Except.error e → e = RouteError.noRoute dst := by
  intro l
  induction l with
  | nil => intro e h; simp [Router.route] at h; exact h.symm
  | cons a l ih =>
    intro e h
    unfold Router.route at h
    by_cases h1 : skipSrc a src = true
    · rw [if_pos h1] at h; exact ih e h
    · rw [if_neg h1] at h
      by_cases h2 : skipDst a dst = true
      · rw [if_pos h2] at h; exact ih e h
      · rw [if_neg h2] at h; simp at h

/-- One step of the scan, for rewriting. -/
theorem route_cons (a : RTInfo) (l : List RTInfo) (src dst : IPAddr) :
    Router.route (a :: l) src dst =
      if skipSrc a src then Router.route l src dst
      else if skipDst a dst then Router.route l src dst
      else Except.ok a := rfl

/-- When the head does not match, the scan moves on. -/
theorem route_cons_of_not_matches (a : RTInfo) (l : List RTInfo) (src dst : IPAddr)
    (hm : rtMatches a src dst = false) :
    Router.route (a :: l) src dst = Router.route l src dst := by
  rw [route_cons]
  by_cases h1 : skipSrc a src = true
  · rw [if_pos h1]
  · have h1f : skipSrc a src = false := by simpa using h1
    have h2 : skipDst a dst = true := by
      rcases Bool.eq_false_or_eq_true (skipDst a dst) with h | h
      · exact h
      · rw [(rtMatches_skips a src dst).mpr ⟨h1f, h⟩] at hm; cases hm
    rw [if_neg h1, if_pos h2]

/-- When the head matches, the scan returns it. -/
theorem route_cons_of_matches (a : RTInfo) (l : List RTInfo) (src dst : IPAddr)
    (hm : rtMatches a src dst = true) :
    Router.route (a :: l) src dst = Except.ok a := by
  rw [rtMatches_skips] at hm
  rw [route_cons, if_neg (by simp [hm.1]), if_neg (by simp [hm.2])]

theorem route_eq_find (src dst : IPAddr) :
    ∀ (l : List RTInfo),
      Router.route l src dst =
        (match l.find? (fun rt => rtMatches rt src dst) with
         | some rt => Except.ok rt
         | none => Except.error (RouteError.noRoute dst)) := by
  intro l
  induction l with
  | nil => rfl
  | cons a l ih =>
    by_cases hm : rtMatches a src dst = true
    · rw [route_cons_of_matches a l src dst hm,
        List.find?_cons_of_pos _ (by exact hm)]
    · have hm' : rtMatches a src dst = false := by simpa using hm
      rw [route_cons_of_not_matches a l src dst hm',
        List.find?_cons_of_neg _ (by simp [hm']), ih]

/-- On a slice sorted by the comparator, the first match is a match of
maximal destination mask length, and of minimal priority among the
matches of that length. -/
theorem route_first_match_sorted (src dst : IPAddr) :
    ∀ (l : List RTInfo), List.Sorted routeLE l →
      (∃ e ∈ l, rtMatches e src dst = true) →
      ∃ rt, Router.route l src dst = Except.ok rt ∧ rtMatches rt src dst = true ∧
        ∀ e ∈ l, rtMatches e src dst = true →
          e.dstOnes ≤ rt.dstOnes ∧ (e.dstOnes = rt.dstOnes → rt.Priority ≤ e.Priority) := by
  intro l
  induction l with
  | nil => intro _ hex; simp at hex
  | cons a l ih =>
    intro hs hex
    rw [List.sorted_cons] at hs
    obtain ⟨hall, hs2⟩ := hs
    by_cases hm : rtMatches a src dst = true
    · refine ⟨a, route_cons_of_matches a l src dst hm, hm, ?_⟩
      intro e he hme
      rcases List.mem_cons.mp he with rfl | he2
      · exact ⟨le_refl _, fun _ => le_refl _⟩
      · have hle := hall e he2
        rw [routeLE_iff] at hle
        exact ⟨by omega, by omega⟩
    · have hm' : rtMatches a src dst = false := by simpa using hm
      have hstep := route_cons_of_not_matches a l src dst hm'
      have hex2 : ∃ e ∈ l, rtMatches e src dst = true := by
        rcases hex with ⟨e, he, hme⟩
        rcases List.mem_cons.mp he with rfl | he2
        · exact absurd hme hm
        · exact ⟨e, he2, hme⟩
      obtain ⟨rt, hroute, hrtm, hopt⟩ := ih hs2 hex2
      refine ⟨rt, hstep ▸ hroute, hrtm, ?_⟩
      intro e he hme
      rcases List.mem_cons.mp he with rfl | he2
      · exact absurd hme hm
      · exact hopt e he2 hme

/-! ## Lemmas about the address selectors -/

theorem fit_some (src dst : IPAddr) :
    ∀ (l : List InterfaceAddress) (A : InterfaceAddress),
      FitAddressSelector l src dst = some A →
      A ∈ l ∧ IPNet.Contains { IP := A.IP, Mask := A.Netmask } dst = true := by
  intro l
  induction l with
  | nil => intro A h; simp [FitAddressSelector] at h
  | cons B l ih =>
    intro A h
    unfold FitAddressSelector at h
    by_cases hc : IPNet.Contains { IP := B.IP, Mask := B.Netmask } dst = true
    · rw [if_pos hc] at h
      simp only [Option.some.injEq] at h
      subst h
      exact ⟨List.mem_cons_self _ _, hc⟩
    · rw [if_neg hc] at h
      obtain ⟨hmem, hcon⟩ := ih A h
      exact ⟨List.mem_cons_of_mem _ hmem, hcon⟩

theorem fit_none (src dst : IPAddr) :
    ∀ (l : List InterfaceAddress),
      (∀ A ∈ l, IPNet.Contains { IP := A.IP, Mask := A.Netmask } dst = false) →
      FitAddressSelector l src dst = none := by
  intro l
  induction l with
  | nil => intro _; rfl
  | cons B l ih =>
    intro hall
    unfold FitAddressSelector
    rw [if_neg (by simp [hall B (List.mem_cons_self _ _)])]
    exact ih fun A hA => hall A (List.mem_cons_of_mem _ hA)

/-! ## Lemmas about the public lookups -/

theorem routeWithSrc_ok (r : Router) (src dst : IPAddr) (iface : Interface)
    (a : Option InterfaceAddress)
    (h : Router.RouteWithSrc r src dst = Except.ok (iface, a)) :
    ∃ rt, ((ipTo4 dst).isSome = true ∧ Router.route r.v4 src dst = Except.ok rt ∨
           (ipTo4 dst).isSome = false ∧ (ipTo16 dst).isSome = true ∧
             Router.route r.v6 src dst = Except.ok rt) ∧
      mapLookup r.ifaces rt.Iface = some iface := by
  unfold Router.RouteWithSrc at h
  by_cases h4 : (ipTo4 dst).isSome = true
  · rw [if_pos h4] at h
    cases hr : Router.route r.v4 src dst with
    | error e => simp only [hr] at h; simp at h
    | ok rt =>
      simp only [hr] at h
      cases hl : mapLookup r.ifaces rt.Iface with
      | none => simp only [hl] at h; simp at h
      | some i =>
        simp only [hl, Except.ok.injEq, Prod.mk.injEq] at h
        exact ⟨rt, Or.inl ⟨h4, rfl⟩, by rw [hl, h.1]⟩
  · rw [if_neg h4] at h
    have h4f : (ipTo4 dst).isSome = false := by simpa using h4
    by_cases h16 : (ipTo16 dst).isSome = true
    · rw [if_pos h16] at h
      cases hr : Router.route r.v6 src dst with
      | error e => simp only [hr] at h; simp at h
      | ok rt =>
        simp only [hr] at h
        cases hl : mapLookup r.ifaces rt.Iface with
        | none => simp only [hl] at h; simp at h
        | some i =>
          simp only [hl, Except.ok.injEq, Prod.mk.injEq] at h
          exact ⟨rt, Or.inr ⟨h4f, h16, rfl⟩, by rw [hl, h.1]⟩
    · rw [if_neg h16] at h
      simp at h

theorem routeWithNextHop_ok (r : Router) (src dst : IPAddr) (iface : Interface)
    (a : Option InterfaceAddress) (nh : Option IPAddr)
    (h : Router.RouteWithNextHop r src dst = Except.ok (iface, a, nh)) :
    ∃ rt, ((ipTo4 dst).isSome = true ∧ Router.route r.v4 src dst = Except.ok rt ∨
           (ipTo4 dst).isSome = false ∧ (ipTo16 dst).isSome = true ∧
             Router.route r.v6 src dst = Except.ok rt) ∧
      mapLookup r.ifaces rt.Iface = some iface ∧ nh = rt.NextHop ∧
      a = FitAddressSelector iface.Addresses src (nhTarget rt.NextHop dst) := by
  unfold Router.RouteWithNextHop at h
  by_cases h4 : (ipTo4 dst).isSome = true
  · rw [if_pos h4] at h
    cases hr : Router.route r.v4 src dst with
    | error e => simp only [hr] at h; simp at h
    | ok rt =>
      simp only [hr] at h
      cases hl : mapLookup r.ifaces rt.Iface with
      | none => simp only [hl] at h; simp at h
      | some i =>
        simp only [hl, Except.ok.injEq, Prod.mk.injEq] at h
        obtain ⟨hif, ha, hnh⟩ := h
        exact ⟨rt, Or.inl ⟨h4, rfl⟩, by rw [hl, hif], hnh.symm,
          by rw [← ha, hif]; rfl⟩
  · rw [if_neg h4] at h
    have h4f : (ipTo4 dst).isSome = false := by simpa using h4
    by_cases h16 : (ipTo16 dst).isSome = true
    · rw [if_pos h16] at h
      cases hr : Router.route r.v6 src dst with
      | error e => simp only [hr] at h; simp at h
      | ok rt =>
        simp only [hr] at h
        cases hl : mapLookup r.ifaces rt.Iface with
        | none => simp only [hl] at h; simp at h
        | some i =>
          simp only [hl, Except.ok.injEq, Prod.mk.injEq] at h
          obtain ⟨hif, ha, hnh⟩ := h
          exact ⟨rt, Or.inr ⟨h4f, h16, rfl⟩, by rw [hl, hif], hnh.symm,
            by rw [← ha, hif]; rfl⟩
    · rw [if_neg h16] at h
      simp at h

/-! ## Lemmas about AddRoutes and the interface map -/

theorem addRoutes_nil (r : Router) (p : Nat) : Router.AddRoutes r p [] = Except.ok r := rfl

theorem addRoutes_cons_none (r : Router) (p : Nat) (route : Route) (rest : List Route)
    (hd : route.Dst = none) :
    Router.AddRoutes r p (route :: rest) = Except.error GoPanic.nilDeref := by
  unfold Router.AddRoutes
  simp [Route.DstNet, hd]

theorem addRoutes_cons_some (r : Router) (p : Nat) (route : Route) (rest : List Route)
    (d : IPNet) (hd : route.Dst = some d) :
    Router.AddRoutes r p (route :: rest) =
      Router.AddRoutes
        { ifaces := mapInsert r.ifaces route.iface.Id route.iface
          v4 := if d.IP.length = 4 then r.v4 ++ [compileRT route p] else r.v4
          v6 := if d.IP.length = 16 then r.v6 ++ [compileRT route p] else r.v6 } p rest := by
  conv_lhs => rw [Router.AddRoutes.eq_def]
  simp only [Route.DstNet, Route.Interface, hd]
  by_cases h4 : d.IP.length = 4
  · have h16 : ¬ d.IP.length = 16 := by omega
    simp [h4, h16]
  · by_cases h16 : d.IP.length = 16
    · simp [h4, h16]
    · simp [h4, h16]

theorem mapLookup_insert (m : IfaceMap) (k j : Int) (v : Interface) :
    mapLookup (mapInsert m k v) j = if k == j then some v else mapLookup m j := by
  by_cases hkj : (k == j) = true
  · simp [mapLookup, mapInsert, List.find?, hkj]
  · simp only [mapInsert, mapLookup, List.find?, hkj, if_neg]
    simp [hkj]

theorem mapLookup_insert_self (m : IfaceMap) (k : Int) (v : Interface) :
    mapLookup (mapInsert m k v) k = some v := by
  rw [mapLookup_insert]
  simp

theorem mapLookup_insert_isSome (m : IfaceMap) (k j : Int) (v : Interface)
    (h : (mapLookup m j).isSome = true) :
    (mapLookup (mapInsert m k v) j).isSome = true := by
  rw [mapLookup_insert]
  by_cases hkj : (k == j) = true
  · rw [if_pos hkj]; rfl
  · rw [if_neg hkj]; exact h

/-- Every compiled entry of the table points at a registered interface. -/
def ifaceOk (r : Router) : Prop :=
  (∀ rt ∈ r.v4, (mapLookup r.ifaces rt.Iface).isSome = true) ∧
  (∀ rt ∈ r.v6, (mapLookup r.ifaces rt.Iface).isSome = true)

theorem ifaceOk_addRoutes : ∀ (rs : List Route) (r r2 : Router) (p : Nat),
    Router.AddRoutes r p rs = Except.ok r2 → ifaceOk r → ifaceOk r2 := by
  intro rs
  induction rs with
  | nil =>
    intro r r2 p h hok
    rw [addRoutes_nil] at h
    simp only [Except.ok.injEq] at h
    subst h
    exact hok
  | cons route rest ih =>
    intro r r2 p h hok
    cases hd : route.Dst with
    | none => rw [addRoutes_cons_none r p route rest hd] at h; cases h
    | some d =>
      rw [addRoutes_cons_some r p route rest d hd] at h
      refine ih _ _ _ h ⟨?_, ?_⟩
      · intro rt hrt
        simp only [List.mem_append, List.mem_singleton] at hrt
        by_cases h4 : d.IP.length = 4
        · rw [if_pos h4] at hrt
          simp only [List.mem_append, List.mem_singleton] at hrt
          rcases hrt with hrt | rfl
          · exact mapLookup_insert_isSome _ _ _ _ (hok.1 rt hrt)
          · show (mapLookup (mapInsert r.ifaces route.iface.Id route.iface)
              route.iface.Id).isSome = true
            rw [mapLookup_insert_self]
            rfl
        · rw [if_neg h4] at hrt
          exact mapLookup_insert_isSome _ _ _ _ (hok.1 rt hrt)
      · intro rt hrt
        simp only [List.mem_append, List.mem_singleton] at hrt
        by_cases h16 : d.IP.length = 16
        · rw [if_pos h16] at hrt
          simp only [List.mem_append, List.mem_singleton] at hrt
          rcases hrt with hrt | rfl
          · exact mapLookup_insert_isSome _ _ _ _ (hok.2 rt hrt)
          · show (mapLookup (mapInsert r.ifaces route.iface.Id route.iface)
              route.iface.Id).isSome = true
            rw [mapLookup_insert_self]
            rfl
        · rw [if_neg h16] at hrt
          exact mapLookup_insert_isSome _ _ _ _ (hok.2 rt hrt)

theorem ifaceOk_update (r : Router) (hok : ifaceOk r) : ifaceOk (Router.Update r) := by
  constructor
  · intro rt hrt
    have : rt ∈ r.v4 := mem_sortRoutes.mp hrt
    exact hok.1 rt this
  · intro rt hrt
    have : rt ∈ r.v6 := mem_sortRoutes.mp hrt
    exact hok.2 rt this

theorem ifaceOk_new : ifaceOk NewRouter := by
  constructor <;> intro rt hrt <;> simp [NewRouter] at hrt

theorem ifaceOk_runOps : ∀ (ops : List RouterOp) (r r2 : Router),
    runOps r ops = Except.ok r2 → ifaceOk r → ifaceOk r2 := by
  intro ops
  induction ops with
  | nil =>
    intro r r2 h hok
    simp only [runOps, Except.ok.injEq] at h
    subst h
    exact hok
  | cons op rest ih =>
    intro r r2 h hok
    cases op with
    | addRoutes p rs =>
      unfold runOps at h
      cases ha : Router.AddRoutes r p rs with
      | error e => simp only [applyOp, ha] at h; cases h
      | ok rmid =>
        simp only [applyOp, ha] at h
        exact ih rmid r2 h (ifaceOk_addRoutes rs r rmid p ha hok)
    | update =>
      unfold runOps at h
      simp only [applyOp] at h
      exact ih _ _ h (ifaceOk_update r hok)

theorem routeWithSrc_not_nilIface (r : Router) (hok : ifaceOk r) (src dst : IPAddr) :
    Router.RouteWithSrc r src dst ≠ Except.error RouteError.nilIface := by
  unfold Router.RouteWithSrc
  by_cases h4 : (ipTo4 dst).isSome = true
  · rw [if_pos h4]
    cases hr : Router.route r.v4 src dst with
    | error e =>
      have he := route_error_shape src dst r.v4 e hr
      subst he
      simp
    | ok rt =>
      have hsome := hok.1 rt (route_ok_mem src dst r.v4 rt hr)
      cases hl : mapLookup r.ifaces rt.Iface with
      | none => rw [hl] at hsome; simp at hsome
      | some i => simp [hl]
  · rw [if_neg h4]
    by_cases h16 : (ipTo16 dst).isSome = true
    · rw [if_pos h16]
      cases hr : Router.route r.v6 src dst with
      | error e =>
        have he := route_error_shape src dst r.v6 e hr
        subst he
        simp
      | ok rt =>
        have hsome := hok.2 rt (route_ok_mem src dst r.v6 rt hr)
        cases hl : mapLookup r.ifaces rt.Iface with
        | none => rw [hl] at hsome; simp at hsome
        | some i => simp [hl]
    · rw [if_neg h16]
      simp

theorem routeWithNextHop_not_nilIface (r : Router) (hok : ifaceOk r) (src dst : IPAddr) :
    Router.RouteWithNextHop r src dst ≠ Except.error RouteError.nilIface := by
  unfold Router.RouteWithNextHop
  by_cases h4 : (ipTo4 dst).isSome = true
  · rw [if_pos h4]
    cases hr : Router.route r.v4 src dst with
    | error e =>
      have he := route_error_shape src dst r.v4 e hr
      subst he
      simp
    | ok rt =>
      have hsome := hok.1 rt (route_ok_mem src dst r.v4 rt hr)
      cases hl : mapLookup r.ifaces rt.Iface with
      | none => rw [hl] at hsome; simp at hsome
      | some i => simp [hl]
  · rw [if_neg h4]
    by_cases h16 : (ipTo16 dst).isSome = true
    · rw [if_pos h16]
      cases hr : Router.route r.v6 src dst with
      | error e =>
        have he := route_error_shape src dst r.v6 e hr
        subst he
        simp
      | ok rt =>
        have hsome := hok.2 rt (route_ok_mem src dst r.v6 rt hr)
        cases hl : mapLookup r.ifaces rt.Iface with
        | none => rw [hl] at hsome; simp at hsome
        | some i => simp [hl]
    · rw [if_neg h16]
      simp

/-! ## Concrete data, following the demonstration table in main() -/

def addrA1 : InterfaceAddress :=
  { IP := [192, 168, 1, 2], Netmask := [255, 255, 255, 0],
    Broadaddr := [192, 168, 1, 255], Gateway := [192, 168, 1, 1] }

def addrA2 : InterfaceAddress :=
  { IP := [192, 168, 1, 3], Netmask := [255, 255, 255, 0],
    Broadaddr := [192, 168, 1, 255], Gateway := [192, 168, 1, 1] }

def addrB1 : InterfaceAddress :=
  { IP := [10, 0, 0, 2], Netmask := [255, 0, 0, 0],
    Broadaddr := [10, 255, 255, 255], Gateway := [10, 0, 0, 1] }

def iface1 : Interface := { Id := 0, Name := "eth0", addrs := [addrA1, addrA2] }

def iface2 : Interface := { Id := 1, Name := "eth1", addrs := [addrB1] }

def net0 : IPNet := { IP := [0, 0, 0, 0], Mask := [0, 0, 0, 0] }

def netA24 : IPNet := { IP := [172, 16, 1, 0], Mask := [255, 255, 255, 0] }

def netA26 : IPNet := { IP := [172, 16, 1, 0], Mask := [255, 255, 255, 192] }

def netB24 : IPNet := { IP := [172, 16, 2, 0], Mask := [255, 255, 255, 0] }

def netC24 : IPNet := { IP := [172, 16, 3, 0], Mask := [255, 255, 255, 0] }

def route26 : Route :=
  { iface := iface2, Src := some net0, Dst := some netA26, Priority := 0,
    NextHop := some [10, 0, 0, 1] }

def demoRoutes : List Route := [
  { iface := iface1, Src := some net0, Dst := some net0, Priority := 0,
    NextHop := some [192, 168, 1, 3] },
  { iface := iface1, Src := some net0, Dst := some netA24, Priority := 0,
    NextHop := some [192, 168, 1, 2] },
  route26,
  { iface := iface2, Src := some net0, Dst := some netB24, Priority := 0,
    NextHop := some [10, 0, 0, 10] },
  { iface := iface2, Src := some net0, Dst := some netC24, Priority := 0,
    NextHop := some [10, 0, 0, 1] }]

def demoRouter : Router :=
  match Router.AddRoutes NewRouter 0 demoRoutes with
  | Except.ok r => Router.Update r
  | Except.error _ => NewRouter

def rt24 : RTInfo :=
  { Src := none, Dst := some netA24, Selector := some SelKind.first,
    Priority := 0, Iface := 0, NextHop := none }

def rt26 : RTInfo :=
  { Src := none, Dst := some netA26, Selector := some SelKind.first,
    Priority := 0, Iface := 1, NextHop := none }

def stC1 : Router := { ifaces := [], v4 := [rt24, rt26], v6 := [] }

def routeBad : Route :=
  { iface := iface1, Src := none, Dst := none, Priority := 0, NextHop := none }

def routeNoSrc : Route :=
  { iface := iface2, Src := none, Dst := some netA26, Priority := 3, NextHop := none }

def addrC : InterfaceAddress :=
  { IP := [10, 0, 0, 2], Netmask := [255, 255, 255, 0],
    Broadaddr := [10, 0, 0, 255], Gateway := [10, 0, 0, 1] }

def iface3 : Interface := { Id := 2, Name := "eth2", addrs := [addrC] }

def routeC8 : Route :=
  { iface := iface3, Src := some net0, Dst := some net0, Priority := 0,
    NextHop := some [11, 0, 0, 1] }

def routerC8 : Router :=
  match Router.AddRoutes NewRouter 0 [routeC8] with
  | Except.ok r => Router.Update r
  | Except.error _ => NewRouter

/-! ## The claims -/

/-- C1: after Update, for every query whose family slice has at least one
matching entry, the entry the scan returns matches, has the maximum
destination mask length among all matching entries, and the minimum
effective priority among the matching entries of that length. -/
theorem c1_longest_match_min_priority (st : Router) (src dst : IPAddr) (l : List RTInfo)
    (hl : l = (Router.Update st).v4 ∨ l = (Router.Update st).v6)
    (hex : ∃ e ∈ l, rtMatches e src dst = true) :
    ∃ rt, Router.route l src dst = Except.ok rt ∧ rtMatches rt src dst = true ∧
      ∀ e ∈ l, rtMatches e src dst = true →
        e.dstOnes ≤ rt.dstOnes ∧ (e.dstOnes = rt.dstOnes → rt.Priority ≤ e.Priority) := by
  have hs : List.Sorted routeLE l := by
    rcases hl with h | h <;> subst h <;> exact sorted_sortRoutes _
  exact route_first_match_sorted src dst l hs hex

theorem c1_longest_match_min_priority_witness :
    ∃ rt, Router.route (Router.Update stC1).v4 [1, 1, 1, 1] [172, 16, 1, 10] = Except.ok rt ∧
      rtMatches rt [1, 1, 1, 1] [172, 16, 1, 10] = true ∧
      ∀ e ∈ (Router.Update stC1).v4, rtMatches e [1, 1, 1, 1] [172, 16, 1, 10] = true →
        e.dstOnes ≤ rt.dstOnes ∧ (e.dstOnes = rt.dstOnes → rt.Priority ≤ e.Priority) :=
  c1_longest_match_min_priority stC1 [1, 1, 1, 1] [172, 16, 1, 10]
    (Router.Update stC1).v4 (Or.inl rfl) (by decide)

/-- C2: the internal lookup equals a first-match scan over the list; an
entry matches exactly when its source net is absent or contains the
source IP and its destination net is absent or contains the destination
IP; no match gives a no-route error carrying the destination; a returned
entry with a source net always has the source IP inside it. -/
theorem c2_scan_semantics (l : List RTInfo) (src dst : IPAddr) (e : RTInfo) :
    (Router.route l src dst =
      (match l.find? (fun rt => rtMatches rt src dst) with
       | some rt => Except.ok rt
       | none => Except.error (RouteError.noRoute dst))) ∧
    (rtMatches e src dst = true ↔
      ((e.Src = none ∨ ∃ n, e.Src = some n ∧ IPNet.Contains n src = true) ∧
       (e.Dst = none ∨ ∃ n, e.Dst = some n ∧ IPNet.Contains n dst = true))) ∧
    (∀ rt, Router.route l src dst = Except.ok rt →
      ∀ n, rt.Src = some n → IPNet.Contains n src = true) := by
  refine ⟨route_eq_find src dst l, ?_, ?_⟩
  · rw [rtMatches_skips, skipSrc_false_iff, skipDst_false_iff]
  · intro rt hrt n hn
    have hm := route_ok_matches src dst l rt hrt
    rw [rtMatches_skips] at hm
    rcases (skipSrc_false_iff rt src).mp hm.1 with h | ⟨n2, hn2, hc⟩
    · rw [h] at hn; cases hn
    · rw [hn] at hn2
      simp only [Option.some.injEq] at hn2
      subst hn2
      exact hc

/-- C3: after Update each family slice is sorted: any entry is followed
only by entries of strictly smaller destination mask length, or equal
length and greater-or-equal effective priority. -/
theorem c3_sorted_after_update (st : Router) :
    List.Chain' (fun A B => B.dstOnes < A.dstOnes ∨
        (A.dstOnes = B.dstOnes ∧ A.Priority ≤ B.Priority)) (Router.Update st).v4 ∧
    List.Chain' (fun A B => B.dstOnes < A.dstOnes ∨
        (A.dstOnes = B.dstOnes ∧ A.Priority ≤ B.Priority)) (Router.Update st).v6 := by
  constructor <;>
    exact List.Pairwise.chain'
      (List.Pairwise.imp (fun h => (routeLE_iff _ _).mp h) (sorted_sortRoutes _))

/-- C4: Update is idempotent: a second Update with no intervening
AddRoutes leaves the router, and hence every lookup result, unchanged. -/
theorem c4_update_idempotent (st : Router) :
    Router.Update (Router.Update st) = Router.Update st ∧
    ∀ src dst : IPAddr,
      Router.RouteWithSrc (Router.Update (Router.Update st)) src dst =
        Router.RouteWithSrc (Router.Update st) src dst := by
  have h : Router.Update (Router.Update st) = Router.Update st := by
    simp [Router.Update, sortRoutes_idem]
  exact ⟨h, fun src dst => by rw [h]⟩

/-- C5: a compiled entry is appended to v4 exactly when its parsed
destination address is 4 bytes long and to v6 exactly when it is 16
bytes long; a lookup whose destination passes the To4 test scans only
v4 and one that fails it but passes To16 scans only v6, so the returned
entry always comes from the bucket of the query's family. -/
theorem c5_family_isolation (r : Router) (src dst : IPAddr) (p : Nat) (rt0 : Route)
    (d : IPNet) (hd : rt0.Dst = some d) :
    (Router.AddRoutes r p [rt0] =
      Except.ok { ifaces := mapInsert r.ifaces rt0.iface.Id rt0.iface
                  v4 := if d.IP.length = 4 then r.v4 ++ [compileRT rt0 p] else r.v4
                  v6 := if d.IP.length = 16 then r.v6 ++ [compileRT rt0 p] else r.v6 }) ∧
    ((ipTo4 dst).isSome = true →
      ∀ iface a, Router.RouteWithSrc r src dst = Except.ok (iface, a) →
        ∃ rt ∈ r.v4, Router.route r.v4 src dst = Except.ok rt ∧
          mapLookup r.ifaces rt.Iface = some iface) ∧
    ((ipTo4 dst).isSome = false → (ipTo16 dst).isSome = true →
      ∀ iface a, Router.RouteWithSrc r src dst = Except.ok (iface, a) →
        ∃ rt ∈ r.v6, Router.route r.v6 src dst = Except.ok rt ∧
          mapLookup r.ifaces rt.Iface = some iface) := by
  refine ⟨?_, ?_, ?_⟩
  · rw [addRoutes_cons_some r p rt0 [] d hd, addRoutes_nil]
  · intro h4 iface a h
    obtain ⟨rt, hcase, hlook⟩ := routeWithSrc_ok r src dst iface a h
    rcases hcase with ⟨_, hr⟩ | ⟨h4f, _, _⟩
    · exact ⟨rt, route_ok_mem src dst r.v4 rt hr, hr, hlook⟩
    · rw [h4] at h4f; cases h4f
  · intro h4f h16 iface a h
    obtain ⟨rt, hcase, hlook⟩ := routeWithSrc_ok r src dst iface a h
    rcases hcase with ⟨h4, _⟩ | ⟨_, _, hr⟩
    · rw [h4] at h4f; cases h4f
    · exact ⟨rt, route_ok_mem src dst r.v6 rt hr, hr, hlook⟩

theorem c5_family_isolation_witness :
    (Router.AddRoutes NewRouter 0 [route26] =
      Except.ok { ifaces := mapInsert NewRouter.ifaces route26.iface.Id route26.iface
                  v4 := if netA26.IP.length = 4
                        then NewRouter.v4 ++ [compileRT route26 0] else NewRouter.v4
                  v6 := if netA26.IP.length = 16
                        then NewRouter.v6 ++ [compileRT route26 0] else NewRouter.v6 }) ∧
    ((ipTo4 [172, 16, 1, 10]).isSome = true →
      ∀ iface a, Router.RouteWithSrc NewRouter [1, 1, 1, 1] [172, 16, 1, 10] =
          Except.ok (iface, a) →
        ∃ rt ∈ NewRouter.v4, Router.route NewRouter.v4 [1, 1, 1, 1] [172, 16, 1, 10] =
            Except.ok rt ∧ mapLookup NewRouter.ifaces rt.Iface = some iface) ∧
    ((ipTo4 [172, 16, 1, 10]).isSome = false → (ipTo16 [172, 16, 1, 10]).isSome = true →
      ∀ iface a, Router.RouteWithSrc NewRouter [1, 1, 1, 1] [172, 16, 1, 10] =
          Except.ok (iface, a) →
        ∃ rt ∈ NewRouter.v6, Router.route NewRouter.v6 [1, 1, 1, 1] [172, 16, 1, 10] =
            Except.ok rt ∧ mapLookup NewRouter.ifaces rt.Iface = some iface) :=
  c5_family_isolation NewRouter [1, 1, 1, 1] [172, 16, 1, 10] 0 route26 netA26 rfl

/-- C6: a successful RouteWithNextHop always selects the local address
with the fit strategy, aimed at the entry's next hop when one is present
and at the destination otherwise, so a returned address lies on the
interface and its own network contains the target; the matched entry's
next hop is returned alongside. -/
theorem c6_nexthop_override (r : Router) (src dst : IPAddr) (iface : Interface)
    (a : Option InterfaceAddress) (nh : Option IPAddr)
    (h : Router.RouteWithNextHop r src dst = Except.ok (iface, a, nh)) :
    a = FitAddressSelector iface.Addresses src (nhTarget nh dst) ∧
    (∃ rt, (Router.route r.v4 src dst = Except.ok rt ∨
            Router.route r.v6 src dst = Except.ok rt) ∧ nh = rt.NextHop) ∧
    (∀ A, a = some A → A ∈ iface.Addresses ∧
      IPNet.Contains { IP := A.IP, Mask := A.Netmask } (nhTarget nh dst) = true) := by
  obtain ⟨rt, hcase, hlook, hnh, ha⟩ := routeWithNextHop_ok r src dst iface a nh h
  have hcase2 : Router.route r.v4 src dst = Except.ok rt ∨
      Router.route r.v6 src dst = Except.ok rt := by
    rcases hcase with ⟨_, hr⟩ | ⟨_, _, hr⟩
    · exact Or.inl hr
    · exact Or.inr hr
  refine ⟨by rw [ha, hnh], ⟨rt, hcase2, hnh⟩, ?_⟩
  intro A hA
  rw [ha] at hA
  obtain ⟨hmem, hcon⟩ := fit_some src (nhTarget rt.NextHop dst) iface.Addresses A hA
  rw [hnh]
  exact ⟨hmem, hcon⟩

theorem c6_nexthop_override_witness :
    (some addrA1 : Option InterfaceAddress) =
      FitAddressSelector iface1.Addresses [192, 168, 1, 2]
        (nhTarget (some [192, 168, 1, 3]) [223, 5, 5, 5]) ∧
    (∃ rt, (Router.route demoRouter.v4 [192, 168, 1, 2] [223, 5, 5, 5] = Except.ok rt ∨
            Router.route demoRouter.v6 [192, 168, 1, 2] [223, 5, 5, 5] = Except.ok rt) ∧
      (some [192, 168, 1, 3] : Option IPAddr) = rt.NextHop) ∧
    (∀ A, (some addrA1 : Option InterfaceAddress) = some A → A ∈ iface1.Addresses ∧
      IPNet.Contains { IP := A.IP, Mask := A.Netmask }
        (nhTarget (some [192, 168, 1, 3]) [223, 5, 5, 5]) = true) :=
  c6_nexthop_override demoRouter [192, 168, 1, 2] [223, 5, 5, 5] iface1 (some addrA1)
    (some [192, 168, 1, 3]) rfl

/-- C7: an unparsable destination CIDR makes AddRoutes fail at once (the
Go code dereferences the nil parse result, a fatal panic) and the route
reaches no family bucket; an unparsable source CIDR with a parsable
destination yields an admitted entry with a nil source net, which
constrains no source IP. -/
theorem c7_parse_asymmetry (r : Router) (p : Nat) (rBad rGood : Route)
    (rest : List Route) (d : IPNet)
    (hbad : rBad.Dst = none) (hgood : rGood.Dst = some d) (hsrc : rGood.Src = none)
    (hlen : d.IP.length = 4 ∨ d.IP.length = 16) :
    Router.AddRoutes r p (rBad :: rest) = Except.error GoPanic.nilDeref ∧
    (∃ r2, Router.AddRoutes r p [rGood] = Except.ok r2 ∧
      (compileRT rGood p).Src = none ∧
      (d.IP.length = 4 → r2.v4 = r.v4 ++ [compileRT rGood p] ∧ r2.v6 = r.v6) ∧
      (d.IP.length = 16 → r2.v6 = r.v6 ++ [compileRT rGood p] ∧ r2.v4 = r.v4)) ∧
    (∀ s : IPAddr, skipSrc (compileRT rGood p) s = false) := by
  refine ⟨addRoutes_cons_none r p rBad rest hbad, ?_, ?_⟩
  · refine ⟨{ ifaces := mapInsert r.ifaces rGood.iface.Id rGood.iface
              v4 := if d.IP.length = 4 then r.v4 ++ [compileRT rGood p] else r.v4
              v6 := if d.IP.length = 16 then r.v6 ++ [compileRT rGood p] else r.v6 },
      ?_, ?_, ?_, ?_⟩
    · rw [addRoutes_cons_some r p rGood [] d hgood, addRoutes_nil]
    · simp [compileRT, Route.SrcNet, hsrc]
    · intro h4
      constructor
      · show (if d.IP.length = 4 then r.v4 ++ [compileRT rGood p] else r.v4) = _
        rw [if_pos h4]
      · show (if d.IP.length = 16 then r.v6 ++ [compileRT rGood p] else r.v6) = _
        rw [if_neg (by omega)]
    · intro h16
      constructor
      · show (if d.IP.length = 16 then r.v6 ++ [compileRT rGood p] else r.v6) = _
        rw [if_pos h16]
      · show (if d.IP.length = 4 then r.v4 ++ [compileRT rGood p] else r.v4) = _
        rw [if_neg (by omega)]
  · intro s
    simp [skipSrc, compileRT, Route.SrcNet, hsrc]

theorem c7_parse_asymmetry_witness :
    Router.AddRoutes NewRouter 7 [routeBad] = Except.error GoPanic.nilDeref ∧
    (∃ r2, Router.AddRoutes NewRouter 7 [routeNoSrc] = Except.ok r2 ∧
      (compileRT routeNoSrc 7).Src = none ∧
      (netA26.IP.length = 4 →
        r2.v4 = NewRouter.v4 ++ [compileRT routeNoSrc 7] ∧ r2.v6 = NewRouter.v6) ∧
      (netA26.IP.length = 16 →
        r2.v6 = NewRouter.v6 ++ [compileRT routeNoSrc 7] ∧ r2.v4 = NewRouter.v4)) ∧
    (∀ s : IPAddr, skipSrc (compileRT routeNoSrc 7) s = false) :=
  c7_parse_asymmetry NewRouter 7 routeBad routeNoSrc [] netA26 rfl rfl rfl (Or.inl rfl)

/-- C8: when a RouteWithNextHop match finds no interface address whose
network contains the selection target, the address component is none
while the call still succeeds, so the outcome is distinguishable from
every lookup error and is never coerced to a default address. -/
theorem c8_no_fit_address (r : Router) (src dst : IPAddr) (iface : Interface)
    (a : Option InterfaceAddress) (nh : Option IPAddr)
    (h : Router.RouteWithNextHop r src dst = Except.ok (iface, a, nh))
    (hnone : ∀ A ∈ iface.Addresses,
      IPNet.Contains { IP := A.IP, Mask := A.Netmask } (nhTarget nh dst) = false) :
    a = none ∧ ∀ e : RouteError, Router.RouteWithNextHop r src dst ≠ Except.error e := by
  obtain ⟨rt, hcase, hlook, hnh, ha⟩ := routeWithNextHop_ok r src dst iface a nh h
  constructor
  · rw [ha]
    apply fit_none
    intro A hA
    have hc := hnone A hA
    rw [hnh] at hc
    exact hc
  · intro e
    rw [h]
    simp

theorem c8_no_fit_address_witness :
    (none : Option InterfaceAddress) = none ∧
    ∀ e : RouteError,
      Router.RouteWithNextHop routerC8 [1, 1, 1, 1] [2, 2, 2, 2] ≠ Except.error e :=
  c8_no_fit_address routerC8 [1, 1, 1, 1] [2, 2, 2, 2] iface3 none
    (some [11, 0, 0, 1]) rfl (by decide)

/-- C9: a compiled entry's effective priority is the uint32 sum of the
route priority and the batch offset: the natural sum reduced modulo
2^32, hence the exact sum whenever that sum is below 2^32. -/
theorem c9_effective_priority (rt0 : Route) (q : Nat)
    (hp : rt0.Priority < 4294967296) (hq : q < 4294967296) :
    (compileRT rt0 q).Priority = (rt0.Priority + q) % 4294967296 ∧
    (rt0.Priority + q < 4294967296 → (compileRT rt0 q).Priority = rt0.Priority + q) := by
  constructor
  · rfl
  · intro h
    have h1 : (compileRT rt0 q).Priority = (rt0.Priority + q) % 4294967296 := rfl
    rw [h1]
    exact Nat.mod_eq_of_lt h

theorem c9_effective_priority_witness :
    (compileRT routeNoSrc 5).Priority = (routeNoSrc.Priority + 5) % 4294967296 ∧
    (routeNoSrc.Priority + 5 < 4294967296 →
      (compileRT routeNoSrc 5).Priority = routeNoSrc.Priority + 5) :=
  c9_effective_priority routeNoSrc 5 (by decide) (by decide)

/-- C10: whatever sequence of AddRoutes and Update calls built a router
from NewRouter, every stored entry's interface id is in the interface
map, and neither lookup can fail on the interface resolution step. -/
theorem c10_interface_registered (ops : List RouterOp) (r : Router)
    (h : runOps NewRouter ops = Except.ok r) :
    (∀ rt ∈ r.v4, (mapLookup r.ifaces rt.Iface).isSome = true) ∧
    (∀ rt ∈ r.v6, (mapLookup r.ifaces rt.Iface).isSome = true) ∧
    (∀ src dst : IPAddr,
      Router.RouteWithSrc r src dst ≠ Except.error RouteError.nilIface ∧
      Router.RouteWithNextHop r src dst ≠ Except.error RouteError.nilIface) := by
  have hok := ifaceOk_runOps ops NewRouter r h ifaceOk_new
  exact ⟨hok.1, hok.2, fun src dst =>
    ⟨routeWithSrc_not_nilIface r hok src dst,
     routeWithNextHop_not_nilIface r hok src dst⟩⟩

theorem c10_interface_registered_witness :
    (∀ rt ∈ demoRouter.v4, (mapLookup demoRouter.ifaces rt.Iface).isSome = true) ∧
    (∀ rt ∈ demoRouter.v6, (mapLookup demoRouter.ifaces rt.Iface).isSome = true) ∧
    (∀ src dst : IPAddr,
      Router.RouteWithSrc demoRouter src dst ≠ Except.error RouteError.nilIface ∧
      Router.RouteWithNextHop demoRouter src dst ≠ Except.error RouteError.nilIface) :=
  c10_interface_registered [RouterOp.addRoutes 0 demoRoutes, RouterOp.update]
    demoRouter rfl

end GoRoute
